import Mathlib

/-!
Verification of the `autopath` configuration-generator scripts.

This file gives a shallow embedding of `generate_config.py` (single-project
config generator) and `batch_generate_config.py` (batch driver) and proves the
specification claims about them.

Modelling conventions:
* Python strings are Lean `String`s; character-level operations work on
  `String.data` (a `List Char`).  Python's `str.lower`, `str.strip`,
  `str.title` are modelled for the ASCII range (the repository only handles
  ASCII protocol names and config keys).
* Python dicts are insertion-ordered association lists `List (String × α)`;
  `dictSet` models `d[k] = v` (replace in place or append), matching CPython's
  ordered-dict semantics.
* JSON values are the inductive `Json` below.  JSON numbers are modelled as
  integers (no claim involves fractional literals).  `json_loads` is a model
  of Python's `json.loads` restricted accordingly.
* The filesystem is an explicit state `FS`: an association list of files
  (path ↦ contents) plus a list of existing directories.  `Path.mkdir` with
  `parents=True` is modelled as inserting the single directory path (paths
  are atomic strings in the model, so intermediate parents are elided).
* A child-process invocation (`subprocess.run`) is modelled by an oracle
  `List String → FS → Int × FS` giving the child's exit status and its effect
  on the filesystem.
-/

namespace Autopath

/-! ## Python string primitives (ASCII model) -/

/-- Python `str.strip` whitespace set (ASCII part): space, tab, newline,
carriage return, vertical tab, form feed. -/
def pyIsSpace (c : Char) : Bool :=
  c = ' ' || c = '\t' || c = '\n' || c = '\r' || c = '\x0b' || c = '\x0c'

/-- `str.lower` on one character (ASCII range). -/
def pyLowerChar (c : Char) : Char :=
  if h : 65 ≤ c.toNat ∧ c.toNat ≤ 90 then
    Char.ofNatAux (c.toNat + 32) (Or.inl (by omega))
  else c

/-- `str.upper` on one character (ASCII range). -/
def pyUpperChar (c : Char) : Char :=
  if h : 97 ≤ c.toNat ∧ c.toNat ≤ 122 then
    Char.ofNatAux (c.toNat - 32) (Or.inl (by omega))
  else c

/-- An ASCII letter (a "cased" character in the ASCII model). -/
def pyIsAlpha (c : Char) : Bool :=
  (65 ≤ c.toNat && c.toNat ≤ 90) || (97 ≤ c.toNat && c.toNat ≤ 122)

/-- Python `str.strip()`: drop leading and trailing whitespace. -/
def pyStrip (s : String) : String :=
  String.mk (((s.data.dropWhile pyIsSpace).reverse.dropWhile pyIsSpace).reverse)

/-- Python `str.lower()`. -/
def pyLower (s : String) : String :=
  String.mk (s.data.map pyLowerChar)

/-- Python `s.replace(" ", "_")` (single-character replacement is a map). -/
def pyReplaceSpaceUnderscore (s : String) : String :=
  String.mk (s.data.map (fun c => if c = ' ' then '_' else c))

/-- Helper for `str.title`: the flag records whether the previous character
was a cased letter. -/
def pyTitleAux : Bool → List Char → List Char
  | _, [] => []
  | prevCased, c :: cs =>
    if pyIsAlpha c then
      (if prevCased then pyLowerChar c else pyUpperChar c) :: pyTitleAux true cs
    else
      c :: pyTitleAux false cs

/-- Python `str.title()` (ASCII model). -/
def pyTitle (s : String) : String :=
  String.mk (pyTitleAux false s.data)

/-- Python truthiness of an optional string (`None` and `""` are falsy). -/
def pyTruthy : Option String → Bool
  | none => false
  | some s => s ≠ ""

/-- Python `a or b` for optional strings: keep `a` when truthy. -/
def pyOr (a b : Option String) : Option String :=
  if pyTruthy a then a else b

/-! ## Python dicts as insertion-ordered association lists -/

/-- `d[k] = v`: replace the value in place if the key is present (keeping its
position), otherwise append the new pair — CPython dict semantics. -/
def dictSet {α : Type} (d : List (String × α)) (k : String) (v : α) :
    List (String × α) :=
  match d with
  | [] => [(k, v)]
  | (k', v') :: rest =>
    if k' = k then (k, v) :: rest else (k', v') :: dictSet rest k v

/-- `d.update(new)`: assign every pair of `new` in order. -/
def dictUpdate {α : Type} (d new : List (String × α)) : List (String × α) :=
  new.foldl (fun acc kv => dictSet acc kv.1 kv.2) d

/-- `d.setdefault(k, v)`: insert (at the end) only when the key is absent. -/
def dictSetdefault {α : Type} (d : List (String × α)) (k : String) (v : α) :
    List (String × α) :=
  if (d.lookup k).isSome then d else d ++ [(k, v)]

/-! ## JSON values and the cleanup pass (`cleanup_config`) -/

/-- A JSON value.  Numbers are modelled as integers. -/
inductive Json where
  | null
  | bool (b : Bool)
  | num (n : Int)
  | str (s : String)
  | arr (xs : List Json)
  | obj (kvs : List (String × Json))

/-- `isinstance(item, str) and item == ""`. -/
def isEmptyString : Json → Bool
  | .str s => s = ""
  | _ => false

/-- The list comprehension on line 52 of `generate_config.py`: keep the
elements that are not the empty string. -/
def dropEmptyStrings (l : List Json) : List Json :=
  l.filter (fun item => !(isEmptyString item))

mutual

/-- `cleanup_config` (generate_config.py lines 49–55): recursively walk the
value; in lists, clean each element then drop empty-string elements; in
dicts, clean each value keeping every key; scalars pass through. -/
def cleanup_config : Json → Json
  | .arr xs => .arr (dropEmptyStrings (cleanup_list xs))
  | .obj kvs => .obj (cleanup_obj kvs)
  | .null => .null
  | .bool b => .bool b
  | .num n => .num n
  | .str s => .str s

/-- `[cleanup_config(item) for item in value]`. -/
def cleanup_list : List Json → List Json
  | [] => []
  | x :: xs => cleanup_config x :: cleanup_list xs

/-- `{k: cleanup_config(v) for k, v in value.items()}`. -/
def cleanup_obj : List (String × Json) → List (String × Json)
  | [] => []
  | (k, v) :: kvs => (k, cleanup_config v) :: cleanup_obj kvs

end

/-! ## A model of `json.loads` -/

/-- The brace characters, written via hex escapes. -/
def lbrace : Char := '\x7b'

def rbrace : Char := '\x7d'

/-- JSON inter-token whitespace. -/
def jsonWs (c : Char) : Bool :=
  c = ' ' || c = '\t' || c = '\n' || c = '\r'

def skipWs (cs : List Char) : List Char :=
  cs.dropWhile jsonWs

/-- Parse the body of a JSON string literal (after the opening quote),
returning the decoded characters and the remaining input.  The common escape
sequences are supported; `\uXXXX` escapes are outside the model. -/
def jparseStringBody : List Char → Option (List Char × List Char)
  | [] => none
  | c :: rest =>
    if c = '"' then some ([], rest)
    else if c = '\\' then
      match rest with
      | [] => none
      | e :: rest2 =>
        let dec : Option Char :=
          if e = '"' then some '"'
          else if e = '\\' then some '\\'
          else if e = '/' then some '/'
          else if e = 'n' then some '\n'
          else if e = 't' then some '\t'
          else if e = 'r' then some '\r'
          else none
        match dec with
        | none => none
        | some d =>
          match jparseStringBody rest2 with
          | none => none
          | some (s, rem) => some (d :: s, rem)
    else
      match jparseStringBody rest with
      | none => none
      | some (s, rem) => some (c :: s, rem)

def isDigit (c : Char) : Bool := 48 ≤ c.toNat && c.toNat ≤ 57

def digitsToNat (ds : List Char) : Nat :=
  ds.foldl (fun acc c => acc * 10 + (c.toNat - 48)) 0

mutual

/-- Parse one JSON value.  The `fuel` argument only bounds recursion depth;
`json_loads` supplies enough fuel for any input it is called on. -/
def jparse : Nat → List Char → Except String (Json × List Char)
  | 0, _ => .error "内部递归深度耗尽"
  | fuel + 1, cs =>
    let cs := skipWs cs
    match cs with
    | [] => .error "Expecting value"
    | c :: rest =>
      if c = 'n' then
        match rest with
        | 'u' :: 'l' :: 'l' :: rem => .ok (.null, rem)
        | _ => .error "Expecting value"
      else if c = 't' then
        match rest with
        | 'r' :: 'u' :: 'e' :: rem => .ok (.bool true, rem)
        | _ => .error "Expecting value"
      else if c = 'f' then
        match rest with
        | 'a' :: 'l' :: 's' :: 'e' :: rem => .ok (.bool false, rem)
        | _ => .error "Expecting value"
      else if c = '"' then
        match jparseStringBody rest with
        | none => .error "Unterminated string"
        | some (s, rem) => .ok (.str (String.mk s), rem)
      else if c = '[' then
        let rest' := skipWs rest
        match rest' with
        | ']' :: rem => .ok (.arr [], rem)
        | _ =>
          match jparseArrayItems fuel rest' with
          | .ok (xs, rem) => .ok (.arr xs, rem)
          | .error e => .error e
      else if c = lbrace then
        let rest' := skipWs rest
        match rest' with
        | d :: rem =>
          if d = rbrace then .ok (.obj [], rem)
          else
            match jparseObjItems fuel [] rest' with
            | .ok (kvs, rem') => .ok (.obj kvs, rem')
            | .error e => .error e
        | [] => .error "Expecting property name"
      else if c = '-' then
        let ds := rest.takeWhile isDigit
        if ds = [] then .error "Expecting value"
        else .ok (.num (-(digitsToNat ds : Int)), rest.dropWhile isDigit)
      else if isDigit c then
        let ds := cs.takeWhile isDigit
        .ok (.num (digitsToNat ds : Int), cs.dropWhile isDigit)
      else .error "Expecting value"

/-- Parse the comma-separated items of a non-empty array (terminating `]`
included). -/
def jparseArrayItems : Nat → List Char → Except String (List Json × List Char)
  | 0, _ => .error "内部递归深度耗尽"
  | fuel + 1, cs =>
    match jparse fuel cs with
    | .error e => .error e
    | .ok (v, rem) =>
      let rem := skipWs rem
      match rem with
      | ']' :: rem2 => .ok ([v], rem2)
      | ',' :: rem2 =>
        match jparseArrayItems fuel rem2 with
        | .ok (vs, rem3) => .ok (v :: vs, rem3)
        | .error e => .error e
      | _ => .error "Expecting comma"

/-- Parse the members of a non-empty object (terminating brace included).
`acc` is the dict built so far; duplicate keys follow dict semantics (the
later value wins, the earlier position is kept). -/
def jparseObjItems : Nat → List (String × Json) → List Char →
    Except String (List (String × Json) × List Char)
  | 0, _, _ => .error "内部递归深度耗尽"
  | fuel + 1, acc, cs =>
    let cs := skipWs cs
    match cs with
    | '"' :: rest =>
      match jparseStringBody rest with
      | none => .error "Unterminated string"
      | some (k, rem) =>
        let rem := skipWs rem
        match rem with
        | ':' :: rem2 =>
          match jparse fuel rem2 with
          | .error e => .error e
          | .ok (v, rem3) =>
            let acc2 := dictSet acc (String.mk k) v
            let rem3 := skipWs rem3
            match rem3 with
            | ',' :: rem4 => jparseObjItems fuel acc2 rem4
            | d :: rem4 =>
              if d = rbrace then .ok (acc2, rem4)
              else .error "Expecting comma"
            | [] => .error "Expecting comma"
        | _ => .error "Expecting colon"
    | _ => .error "Expecting property name"

end

/-- Model of Python `json.loads`: parse one value and require only
whitespace to remain. -/
def json_loads (s : String) : Except String Json :=
  match jparse (s.length + 2) s.data with
  | .error e => .error e
  | .ok (v, rem) =>
    if skipWs rem = [] then .ok v else .error "Extra data"

/-! ## `string.Template.safe_substitute`

Python's `string.Template` scans the text for `$`-markers:
`$$` is an escape for `$`; `$name` and `${name}` (with
`name = [_a-zA-Z][_a-zA-Z0-9]*`) are placeholders, substituted when the key
is in the mapping and left verbatim otherwise (`safe_substitute` semantics);
any other `$` (the "invalid" case) is left in place. -/

/-- First character of a Template identifier: `[_a-zA-Z]`. -/
def isIdentStart (c : Char) : Bool :=
  c = '_' || (65 ≤ c.toNat && c.toNat ≤ 90) || (97 ≤ c.toNat && c.toNat ≤ 122)

/-- Subsequent characters of a Template identifier: `[_a-zA-Z0-9]`. -/
def isIdentChar (c : Char) : Bool :=
  isIdentStart c || isDigit c

/-- Take the longest identifier-character run. -/
def takeIdentChars : List Char → List Char × List Char
  | [] => ([], [])
  | c :: cs =>
    if isIdentChar c then
      let p := takeIdentChars cs
      (c :: p.1, p.2)
    else ([], c :: cs)

/-- Result of a `$name` occurrence: the mapping value when present, the
occurrence itself otherwise. -/
def namedResult (m : List (String × String)) (ident : List Char) : List Char :=
  match m.lookup (String.mk ident) with
  | some v => v.data
  | none => '$' :: ident

/-- Result of a `${name}` occurrence. -/
def bracedResult (m : List (String × String)) (ident : List Char) : List Char :=
  match m.lookup (String.mk ident) with
  | some v => v.data
  | none => '$' :: lbrace :: (ident ++ [rbrace])

/-- Process the text following one `$`: returns the characters to emit and
the remaining input.  Covers the four regex alternatives of
`string.Template`: `escaped` (`$$`), `braced` (`${name}`), `named`
(`$name`) and `invalid` (a bare `$`, left in place). -/
def scanDollar (m : List (String × String)) (cs : List Char) :
    List Char × List Char :=
  match cs with
  | [] => (['$'], [])
  | d :: cs2 =>
    if d = '$' then (['$'], cs2)
    else if d = lbrace then
      let p := takeIdentChars cs2
      match p.2 with
      | r :: rest3 =>
        if p.1 ≠ [] ∧ isIdentStart (p.1.headD ' ') ∧ r = rbrace then
          (bracedResult m p.1, rest3)
        else (['$'], d :: cs2)
      | [] => (['$'], d :: cs2)
    else if isIdentStart d then
      let p := takeIdentChars (d :: cs2)
      (namedResult m p.1, p.2)
    else (['$'], d :: cs2)

/-- `Template(text).safe_substitute(m)` on character lists.  The scan
consumes at least one character per step, so recursion is expressed
structurally on a step budget; `safe_substitute` supplies the input length,
which always suffices (`scanDollar` never lengthens the remaining input),
so the budget-exhausted case is unreachable. -/
def safeSubFuel (m : List (String × String)) : Nat → List Char → List Char
  | _, [] => []
  | 0, c :: cs => c :: cs
  | fuel + 1, c :: cs =>
    if c = '$' then
      let p := scanDollar m cs
      p.1 ++ safeSubFuel m fuel p.2
    else c :: safeSubFuel m fuel cs

/-- `Template(template_text).safe_substitute(string_mapping)`. -/
def safe_substitute (text : String) (m : List (String × String)) : String :=
  String.mk (safeSubFuel m text.data.length text.data)

/-- The check `"${" in rendered`. -/
def containsMarker : List Char → Bool
  | [] => false
  | [_] => false
  | a :: b :: cs => (a = '$' && b = lbrace) || containsMarker (b :: cs)

/-! ## `generate_from_template` -/

mutual

/-- Python `repr(v)` for JSON-derived values (escape processing inside
quoted strings is not modelled; no claim exercises it). -/
def pyRepr : Json → String
  | .str s => "'" ++ s ++ "'"
  | .null => "None"
  | .bool true => "True"
  | .bool false => "False"
  | .num n => toString n
  | .arr xs => "[" ++ String.intercalate ", " (pyReprList xs) ++ "]"
  | .obj kvs => "\x7b" ++ String.intercalate ", " (pyReprObj kvs) ++ "\x7d"

def pyReprList : List Json → List String
  | [] => []
  | x :: xs => pyRepr x :: pyReprList xs

def pyReprObj : List (String × Json) → List String
  | [] => []
  | (k, v) :: kvs => ("'" ++ k ++ "': " ++ pyRepr v) :: pyReprObj kvs

end

/-- Python `str(v)` for JSON-derived values. -/
def pyStr : Json → String
  | .null => "None"
  | .bool true => "True"
  | .bool false => "False"
  | .num n => toString n
  | .str s => s
  | .arr xs => "[" ++ String.intercalate ", " (pyReprList xs) ++ "]"
  | .obj kvs => "\x7b" ++ String.intercalate ", " (pyReprObj kvs) ++ "\x7d"

/-- Line 60 of `generate_config.py`: `"" if v is None else str(v)`. -/
def pyStrOrEmpty : Json → String
  | .null => ""
  | v => pyStr v

/-- The two failure modes of `generate_from_template`: the post-substitution
completeness check, and a JSON syntax error from `json.loads`. -/
inductive RenderError where
  | templateIncomplete
  | jsonDecodeError (msg : String)
deriving DecidableEq

/-- Line 60: `{k: ("" if v is None else str(v)) for k, v in mapping.items()}`. -/
def string_mapping (mapping : List (String × Json)) : List (String × String) :=
  mapping.map (fun kv => (kv.1, pyStrOrEmpty kv.2))

/-- `generate_from_template` (generate_config.py lines 58–65) minus the file
read: the template text is passed in directly (`generate_config_main` below
performs the read). -/
def generate_from_template (template_text : String)
    (mapping : List (String × Json)) : Except RenderError Json :=
  let rendered := safe_substitute template_text (string_mapping mapping)
  if containsMarker rendered.data then .error .templateIncomplete
  else
    match json_loads rendered with
    | .ok data => .ok (cleanup_config data)
    | .error e => .error (.jsonDecodeError e)

/-! ## The filesystem state -/

/-- Filesystem model: regular files (path ↦ contents) and directories. -/
structure FS where
  files : List (String × String)
  dirs : List String
deriving DecidableEq

def fileExists (fs : FS) (p : String) : Bool :=
  (fs.files.lookup p).isSome

/-- `Path.exists()` / `os.path.exists`: true for files and directories. -/
def pathExists (fs : FS) (p : String) : Bool :=
  fileExists fs p || fs.dirs.contains p

def readFile (fs : FS) (p : String) : Option String :=
  fs.files.lookup p

def writeFile (fs : FS) (p content : String) : FS :=
  FS.mk (dictSet fs.files p content) fs.dirs

/-- `Path(d).mkdir(parents=True, exist_ok=True)`.  Paths are atomic strings
in the model, so the creation of intermediate parents is elided. -/
def mkdir_p (fs : FS) (d : String) : FS :=
  if fs.dirs.contains d then fs else FS.mk fs.files (d :: fs.dirs)

/-- `Path(p).parent` rendered as a string. -/
def parentDir (p : String) : String :=
  let parts := p.splitOn "/"
  if parts.length ≤ 1 then "." else String.intercalate "/" parts.dropLast

/-- `os.path.normpath`: separator normalization is elided (paths are atomic
strings in the model). -/
def normpath (p : String) : String := p

/-! ## `json.dump` (serialization)

Only identity of contents matters for the claims; the exact 2-space-indent
layout produced by `json.dump(config, f, indent=2)` is not reproduced. -/

mutual

def dumpJson : Json → String
  | .null => "null"
  | .bool true => "true"
  | .bool false => "false"
  | .num n => toString n
  | .str s => "\"" ++ s ++ "\""
  | .arr xs => "[" ++ String.intercalate ", " (dumpJsonList xs) ++ "]"
  | .obj kvs => "\x7b" ++ String.intercalate ", " (dumpJsonObj kvs) ++ "\x7d"

def dumpJsonList : List Json → List String
  | [] => []
  | x :: xs => dumpJson x :: dumpJsonList xs

def dumpJsonObj : List (String × Json) → List String
  | [] => []
  | (k, v) :: kvs => ("\"" ++ k ++ "\": " ++ dumpJson v) :: dumpJsonObj kvs

end

/-! ## `generate_config.py`: argument handling and `main` -/

/-- Split an `item` of `--var` at the first `=` (`item.split("=", 1)`);
`none` when the item contains no `=`. -/
def breakAtEq : List Char → Option (List Char × List Char)
  | [] => none
  | c :: cs =>
    if c = '=' then some ([], cs)
    else
      match breakAtEq cs with
      | none => none
      | some p => some (c :: p.1, p.2)

/-- `parse_kv` loop (generate_config.py lines 32–39): builds the result dict
in order; an item without `=` raises `ValueError`. -/
def parse_kv_aux (acc : List (String × String)) :
    List String → Except String (List (String × String))
  | [] => .ok acc
  | item :: rest =>
    match breakAtEq item.data with
    | none => .error ("无效参数格式: " ++ item ++ "，应为 key=value")
    | some (k, v) =>
      parse_kv_aux (dictSet acc (pyStrip (String.mk k)) (pyStrip (String.mk v))) rest

/-- `parse_kv(pairs)`. -/
def parse_kv (pairs : List String) : Except String (List (String × String)) :=
  parse_kv_aux [] pairs

/-- One entry of the built-in registry `DEFAULT_PROJECTS`. -/
structure ProjectDefaults where
  deploy : Option String := none
  template : Option String := none
  output : Option String := none
  vars : List (String × Json) := []

/-- `DEFAULT_PROJECTS` (generate_config.py lines 19–29). -/
def DEFAULT_PROJECTS : List (String × ProjectDefaults) :=
  [("lodestar",
    { deploy := some "../test/Lodestar/scripts/data/deployed-local.json",
      template := some "config/templates/lodestar_dynamic.json.tmpl",
      output := some "pkg/invariants/configs/lodestar-dynamic.json",
      vars := [("project_id", Json.str "lodestar-local-dynamic"),
               ("project_name", Json.str "Lodestar Protocol (Local Dynamic)")] })]

/-- The argparse namespace of `generate_config.py`. -/
structure GenArgs where
  project : String := "lodestar"
  deploy : Option String := none
  template : Option String := none
  output : Option String := none
  var : List String := []
deriving DecidableEq

/-- How one invocation of `generate_config.py` terminates. -/
inductive GenOutcome where
  /-- Config rendered and written; carries the final filesystem and value. -/
  | ok (fs : FS) (config : Json)
  /-- `parser.error(...)`: no template path resolved (exit code 2). -/
  | parserExit (msg : String)
  /-- `ValueError` raised by `parse_kv` (uncaught, non-zero exit). -/
  | varError (msg : String)
  /-- `json.load` failure or non-object deploy JSON (uncaught). -/
  | deployError (msg : String)
  /-- `Path(template_path).read_text()` failed: template file absent. -/
  | templateReadError (path : String)
  /-- `ValueError`/JSON error raised inside `generate_from_template`. -/
  | renderError (e : RenderError)

/-- `load_json_if_exists` (lines 42–46) combined with the requirement that
`mapping.update(...)` needs a dict: a parsed non-object raises. -/
def load_json_if_exists (fs : FS) (path : String) :
    Except String (List (String × Json)) :=
  if path = "" || !(fileExists fs path) then .ok []
  else
    match readFile fs path with
    | none => .ok []
    | some text =>
      match json_loads text with
      | .ok (.obj kvs) => .ok kvs
      | .ok _ => .error "部署文件不是 JSON 对象"
      | .error e => .error e

/-- Mapping construction, `main` lines 96–108: start from the deployment
fields (empty when the deploy file is absent), `update` with the registry
default vars, `update` with the parsed `--var` pairs, then `setdefault` the
three fallbacks. -/
def compute_mapping (deployFields : List (String × Json))
    (defaultVars : List (String × Json)) (var_args : List String)
    (project output_path : String) :
    Except String (List (String × Json)) :=
  match parse_kv var_args with
  | .error e => .error e
  | .ok kvs =>
    let mapping := dictUpdate (dictUpdate deployFields defaultVars)
      (kvs.map (fun kv => (kv.1, Json.str kv.2)))
    let mapping := dictSetdefault mapping "project_id"
      (Json.str (project ++ "-dynamic"))
    let mapping := dictSetdefault mapping "project_name"
      (Json.str (pyTitle project ++ " Project (Dynamic)"))
    let mapping := dictSetdefault mapping "config_path" (Json.str output_path)
    .ok mapping

/-- The missing-deploy-file warning printed on line 100. -/
def missingDeployWarning (deploy_path : String) : String :=
  "⚠️  未找到部署文件 " ++ deploy_path ++ "，缺失字段将使用空字符串"

/-- `main` of `generate_config.py` (lines 85–113).  Returns the warnings
printed and the outcome.  The summary printing (lines 115–122) has no
observable effect beyond stdout and is elided. -/
def generate_config_main (args : GenArgs) (fs : FS) :
    List String × GenOutcome :=
  let project := pyLower args.project
  let defaults := (DEFAULT_PROJECTS.lookup project).getD {}
  let deploy_path := pyOr args.deploy defaults.deploy
  let template_path := pyOr args.template defaults.template
  let output_path :=
    (pyOr (pyOr args.output defaults.output)
      (some ("pkg/invariants/configs/" ++ project ++ "-dynamic.json"))).getD ""
  if !(pyTruthy template_path) then
    ([], .parserExit ("项目 " ++ project ++ " 缺少模板文件，请通过 --template 指定"))
  else
    let tp := template_path.getD ""
    let deployStep : List String × Except String (List (String × Json)) :=
      match deploy_path with
      | none => ([], .ok [])
      | some dp0 =>
        if dp0 = "" then ([], .ok [])
        else
          let dp := normpath dp0
          if !(pathExists fs dp) then ([missingDeployWarning dp], .ok [])
          else ([], load_json_if_exists fs dp)
    let warns := deployStep.1
    match deployStep.2 with
    | .error e => (warns, .deployError e)
    | .ok deployFields =>
      match compute_mapping deployFields defaults.vars args.var project output_path with
      | .error e => (warns, .varError e)
      | .ok mapping =>
        match readFile fs tp with
        | none => (warns, .templateReadError tp)
        | some template_text =>
          match generate_from_template template_text mapping with
          | .error e => (warns, .renderError e)
          | .ok config =>
            let fs := mkdir_p fs (parentDir output_path)
            let fs := writeFile fs output_path (dumpJson config)
            (warns, .ok fs config)

/-! ## `batch_generate_config.py` -/

/-- `Path(__file__).resolve().parent.parent`; the absolute location is
environment-dependent and modelled as a fixed root string. -/
def PROJECT_ROOT : String := "ROOT"

def SCRIPT_DIR : String := "ROOT/autopath"

def GENERATE_CONFIG : String := SCRIPT_DIR ++ "/generate_config.py"

def EXTRACTED_ROOT : String := PROJECT_ROOT ++ "/DeFiHackLabs/extracted_contracts"

def GENERATED_ROOT : String := PROJECT_ROOT ++ "/generated"

def TEMPLATE_FALLBACK_ROOT : String := SCRIPT_DIR ++ "/config/templates"

def OUTPUT_ROOT : String := SCRIPT_DIR ++ "/pkg/invariants/configs"

/-- `sys.executable`. -/
def PYTHON : String := "python3"

/-- The argparse namespace of `batch_generate_config.py`. -/
structure BatchArgs where
  filter : List String := []
  /-- `--protocols` has no default, hence `Option`. -/
  protocols : Option (List String) := none
  var : List String := []
  force : Bool := false
  dryRun : Bool := false
  quiet : Bool := false
deriving DecidableEq

/-- `protocol_to_key` (batch_generate_config.py lines 116–120). -/
def protocol_to_key (protocol : String) : String :=
  let key := pyReplaceSpaceUnderscore (pyLower (pyStrip protocol))
  if List.isSuffixOf "_exp".data key.data then
    String.mk (key.data.take (key.data.length - 4))
  else key

/-- Python `str.split(sep)` for a one-character separator (`entry.split(",")`). -/
def splitOnChar (sep : Char) : List Char → List (List Char)
  | [] => [[]]
  | c :: cs =>
    if c = sep then [] :: splitOnChar sep cs
    else
      match splitOnChar sep cs with
      | [] => [[c]]
      | g :: gs => (c :: g) :: gs

/-- Inner loop of `parse_protocols`: split each entry on commas, strip,
drop empties, deduplicate keeping first occurrences. -/
def parse_protocols_aux (seen result : List String) :
    List String → List String
  | [] => result.reverse
  | entry :: rest =>
    if entry = "" then parse_protocols_aux seen result rest
    else
      let parts := ((splitOnChar ',' entry.data).map (fun g => pyStrip (String.mk g))).filter
        (fun p => p ≠ "")
      let step := parts.foldl
        (fun (acc : List String × List String) name =>
          if acc.1.contains name then acc else (name :: acc.1, name :: acc.2))
        (seen, result)
      parse_protocols_aux step.1 step.2 rest

/-- `parse_protocols` (lines 99–113). -/
def parse_protocols (protocol_args : Option (List String)) : List String :=
  match protocol_args with
  | none => []
  | some [] => []
  | some entries => parse_protocols_aux [] [] entries

/-- `build_command` (lines 123–147). -/
def build_command (project template_path deploy_path output_path : String)
    (extra_vars : List String) : List String :=
  let cmd := [PYTHON, GENERATE_CONFIG, "--project", project,
    "--template", template_path, "--output", output_path]
  let cmd := cmd ++ (if deploy_path ≠ "" then ["--deploy", deploy_path] else [])
  cmd ++ extra_vars.foldr (fun kv acc => "--var" :: kv :: acc) []

/-- The generated-tree template path for a protocol (line 169). -/
def template_primary (protocol : String) : String :=
  GENERATED_ROOT ++ "/" ++ protocol ++ "/" ++ protocol_to_key protocol
    ++ "_dynamic.json.tmpl"

/-- The shared fallback template path (line 171). -/
def template_fallback (protocol : String) : String :=
  TEMPLATE_FALLBACK_ROOT ++ "/" ++ protocol_to_key protocol
    ++ "_dynamic.json.tmpl"

/-- Lines 169–173: the primary path, replaced by the fallback when the
primary is absent and the fallback exists. -/
def resolve_template (fs : FS) (protocol : String) : String :=
  let t0 := template_primary protocol
  if !(pathExists fs t0) then
    let fb := template_fallback protocol
    if pathExists fs fb then fb else t0
  else t0

/-- The per-protocol deployment path (lines 174–181). -/
def deploy_for (protocol : String) : String :=
  PROJECT_ROOT ++ "/test/" ++ protocol ++ "/scripts/data/deployment.json"

/-- The per-protocol output path (line 182). -/
def output_for (protocol : String) : String :=
  OUTPUT_ROOT ++ "/" ++ protocol_to_key protocol ++ ".json"

/-- Classification of one loop iteration. -/
inductive ProtoOutcome where
  | success
  | skipped
  | failed
deriving DecidableEq

/-- The oracle modelling `subprocess.run(cmd, cwd=PROJECT_ROOT)`: exit
status of the child plus its effect on the filesystem. -/
def ChildRun : Type := List String → FS → Int × FS

/-- One iteration of the protocol loop (lines 167–217). -/
def process_protocol (args : BatchArgs) (runChild : ChildRun) (fs : FS)
    (protocol : String) : ProtoOutcome × FS :=
  let project_key := protocol_to_key protocol
  let template_path := resolve_template fs protocol
  let deploy_path := deploy_for protocol
  let output_path := output_for protocol
  if !(pathExists fs template_path) then (.failed, fs)
  else if pathExists fs output_path && !args.force then (.skipped, fs)
  else
    let cmd := build_command project_key template_path deploy_path output_path args.var
    if args.dryRun then (.success, fs)
    else
      let r := runChild cmd fs
      if r.1 = 0 then (.success, r.2) else (.failed, r.2)

/-- The protocol loop, threading the three counters and the filesystem. -/
def batch_loop (args : BatchArgs) (runChild : ChildRun) :
    List String → FS → Nat → Nat → Nat → Nat × Nat × Nat × FS
  | [], fs, s, k, f => (s, k, f, fs)
  | p :: ps, fs, s, k, f =>
    match process_protocol args runChild fs p with
    | (.success, fs') => batch_loop args runChild ps fs' (s + 1) k f
    | (.skipped, fs') => batch_loop args runChild ps fs' s (k + 1) f
    | (.failed, fs') => batch_loop args runChild ps fs' s k (f + 1)

/-- Result of one `batch_generate_config.py` run. -/
structure BatchResult where
  exitCode : Int
  success : Nat
  skipped : Nat
  failed : Nat
  fs : FS
deriving DecidableEq

/-- Lines 153–155: explicit `--protocols` win; otherwise the directory scan.
The scan itself (`collect_protocols`) is filesystem discovery whose result
is passed in as `discovered`. -/
def effective_protocol_list (args : BatchArgs) (discovered : List String) :
    List String :=
  let pl := parse_protocols args.protocols
  if pl = [] then discovered else pl

/-- `main` of `batch_generate_config.py` (lines 150–226).  `discovered`
stands for the result of `collect_protocols(args.filter)`. -/
def batch_main (args : BatchArgs) (discovered : List String)
    (runChild : ChildRun) (fs : FS) : BatchResult :=
  let protocol_list := effective_protocol_list args discovered
  if protocol_list = [] then
    BatchResult.mk 1 0 0 0 fs
  else
    let fs := mkdir_p fs OUTPUT_ROOT
    let r := batch_loop args runChild protocol_list fs 0 0 0
    BatchResult.mk (if r.2.2.1 = 0 then 0 else 1) r.1 r.2.1 r.2.2.1 r.2.2.2

/-! # Theorems

## Dictionary lemmas -/

theorem lookup_dictSet {α : Type} (d : List (String × α)) (k k' : String) (v : α) :
    (dictSet d k v).lookup k' = if k' = k then some v else d.lookup k' := by
  induction d with
  | nil =>
    by_cases h : k' = k
    · simp [dictSet, List.lookup, h]
    · have hb : (k' == k) = false := beq_eq_false_iff_ne.2 h
      simp [dictSet, List.lookup, hb, h]
  | cons kv rest ih =>
    obtain ⟨k0, v0⟩ := kv
    by_cases h0 : k0 = k
    · subst h0
      by_cases h : k' = k0
      · simp [dictSet, List.lookup, h]
      · have hb : (k' == k0) = false := beq_eq_false_iff_ne.2 h
        simp [dictSet, List.lookup, hb, h]
    · by_cases h : k' = k0
      · subst h
        simp [dictSet, if_neg h0, List.lookup, h0]
      · have hb : (k' == k0) = false := beq_eq_false_iff_ne.2 h
        simp [dictSet, h0, List.lookup, hb, ih]

theorem mem_keys_dictSet {α : Type} (d : List (String × α)) (k a : String) (v : α) :
    a ∈ (dictSet d k v).map Prod.fst ↔ a ∈ d.map Prod.fst ∨ a = k := by
  induction d with
  | nil => simp [dictSet]
  | cons kv rest ih =>
    obtain ⟨k0, v0⟩ := kv
    by_cases h0 : k0 = k
    · subst h0
      have hstep : dictSet ((k0, v0) :: rest) k0 v = (k0, v) :: rest := by
        simp [dictSet]
      rw [hstep]
      simp
      tauto
    · have hstep : dictSet ((k0, v0) :: rest) k v = (k0, v0) :: dictSet rest k v := by
        simp [dictSet, h0]
      rw [hstep]
      simp [ih]
      tauto

theorem nodup_keys_dictSet {α : Type} (d : List (String × α)) (k : String) (v : α)
    (h : (d.map Prod.fst).Nodup) : ((dictSet d k v).map Prod.fst).Nodup := by
  induction d with
  | nil => simp [dictSet]
  | cons kv rest ih =>
    obtain ⟨k0, v0⟩ := kv
    rw [List.map_cons, List.nodup_cons] at h
    by_cases h0 : k0 = k
    · subst h0
      have hstep : dictSet ((k0, v0) :: rest) k0 v = (k0, v) :: rest := by
        simp [dictSet]
      rw [hstep, List.map_cons, List.nodup_cons]
      exact h
    · have hstep : dictSet ((k0, v0) :: rest) k v = (k0, v0) :: dictSet rest k v := by
        simp [dictSet, h0]
      rw [hstep, List.map_cons, List.nodup_cons]
      refine ⟨?_, ih h.2⟩
      intro hmem
      rcases (mem_keys_dictSet rest k k0 v).1 hmem with h1 | h1
      · exact h.1 h1
      · exact h0 h1

theorem lookup_eq_none_of_not_mem_keys {α : Type} (d : List (String × α)) (k : String)
    (h : k ∉ d.map Prod.fst) : d.lookup k = none := by
  induction d with
  | nil => rfl
  | cons kv rest ih =>
    obtain ⟨k0, v0⟩ := kv
    rw [List.map_cons] at h
    have h1 : ¬(k = k0) := fun he => h (by simp [he])
    have h2 : k ∉ rest.map Prod.fst := fun hm => h (by simp [hm])
    have hb : (k == k0) = false := beq_eq_false_iff_ne.2 h1
    simp only [List.lookup, hb]
    exact ih h2

theorem lookup_dictUpdate {α : Type} (d new : List (String × α)) (k : String)
    (hnd : (new.map Prod.fst).Nodup) :
    (dictUpdate d new).lookup k = (new.lookup k).or (d.lookup k) := by
  induction new generalizing d with
  | nil => simp [dictUpdate, List.lookup]
  | cons kv rest ih =>
    obtain ⟨k0, v0⟩ := kv
    simp at hnd
    have step : dictUpdate d ((k0, v0) :: rest) = dictUpdate (dictSet d k0 v0) rest := rfl
    rw [step, ih (dictSet d k0 v0) hnd.2]
    by_cases h : k = k0
    · subst h
      rw [lookup_eq_none_of_not_mem_keys rest k (by simpa using hnd.1)]
      simp [List.lookup, lookup_dictSet]
    · simp [List.lookup, show (k == k0) = false from beq_eq_false_iff_ne.2 h,
        lookup_dictSet, h]

theorem lookup_dictSetdefault {α : Type} (d : List (String × α)) (k0 k : String) (v : α) :
    (dictSetdefault d k0 v).lookup k =
      if k = k0 then (d.lookup k0).or (some v) else d.lookup k := by
  unfold dictSetdefault
  by_cases h : k = k0
  · subst h
    cases hdk : d.lookup k with
    | some w => simp [hdk]
    | none =>
      simp [hdk, List.lookup_append, hdk, List.lookup]
  · cases hdk : d.lookup k0 with
    | some w => simp [hdk, h]
    | none =>
      simp [hdk, h, List.lookup_append]
      cases hk : d.lookup k with
      | some w => simp
      | none => simp [List.lookup, show (k == k0) = false from beq_eq_false_iff_ne.2 h]

theorem lookup_map_jsonStr (kvs : List (String × String)) (k : String) :
    ((kvs.map (fun kv => (kv.1, Json.str kv.2))).lookup k) = (kvs.lookup k).map Json.str := by
  induction kvs with
  | nil => rfl
  | cons kv rest ih =>
    by_cases h : k = kv.1
    · simp [List.lookup, h]
    · simp [List.lookup, show (k == kv.1) = false from beq_eq_false_iff_ne.2 h, ih]

theorem keys_parse_kv_aux_nodup (pairs : List String) :
    ∀ acc : List (String × String), (acc.map Prod.fst).Nodup →
    ∀ kvs, parse_kv_aux acc pairs = .ok kvs → (kvs.map Prod.fst).Nodup := by
  induction pairs with
  | nil =>
    intro acc hacc kvs h
    simp [parse_kv_aux] at h
    exact h ▸ hacc
  | cons item rest ih =>
    intro acc hacc kvs h
    simp only [parse_kv_aux] at h
    cases hbr : breakAtEq item.data with
    | none => rw [hbr] at h; exact absurd h (by simp)
    | some p =>
      rw [hbr] at h
      exact ih _ (nodup_keys_dictSet _ _ _ hacc) kvs h

theorem keys_parse_kv_nodup (pairs : List String) (kvs : List (String × String))
    (h : parse_kv pairs = .ok kvs) : (kvs.map Prod.fst).Nodup :=
  keys_parse_kv_aux_nodup pairs [] (by simp) kvs h

/-! ## C1: the §8 merge scenario -/

/-- C1 counterexample: merging deploy `{"a":"1"}`, defaults
`{"a":"2","b":"3"}` and override `["b=4"]` does *not* give `"a" ↦ "1"`:
the built-in defaults are merged *after* (and therefore override) the
deployment fields, so `"a" ↦ "2"`. -/
theorem c1_counterexample :
    (match compute_mapping [("a", Json.str "1")]
        [("a", Json.str "2"), ("b", Json.str "3")] ["b=4"] "demo" "out.json" with
     | .ok m => m.lookup "a"
     | .error _ => none) = some (Json.str "2") ∧
    (some (Json.str "2") ≠ some (Json.str "1")) := by
  refine ⟨rfl, ?_⟩
  intro h
  injection h with h2
  injection h2 with h3
  exact absurd h3 (by decide)

/-- C1 (amended): with deploy `{"a":"1"}`, defaults `{"a":"2","b":"3"}` and
override `["b=4"]`, the merged mapping carries `"a" ↦ "2"` and `"b" ↦ "4"`
(override beats default, default beats deploy). -/
theorem c1_merge_scenario :
    (match compute_mapping [("a", Json.str "1")]
        [("a", Json.str "2"), ("b", Json.str "3")] ["b=4"] "demo" "out.json" with
     | .ok m => (m.lookup "a", m.lookup "b")
     | .error _ => (none, none)) =
      (some (Json.str "2"), some (Json.str "4")) := rfl

/-! ## C9: idempotence of the cleanup pass -/

theorem mem_cleanup_list (xs : List Json) (y : Json) (hy : y ∈ cleanup_list xs) :
    ∃ x, x ∈ xs ∧ y = cleanup_config x := by
  induction xs with
  | nil => simp [cleanup_list] at hy
  | cons x xs ih =>
    rw [cleanup_list] at hy
    rcases List.mem_cons.1 hy with h | h
    · exact ⟨x, List.mem_cons_self x xs, h⟩
    · obtain ⟨x', hx', rfl⟩ := ih h
      exact ⟨x', List.mem_cons_of_mem x hx', rfl⟩

theorem cleanup_list_fixed (l : List Json) (h : ∀ y ∈ l, cleanup_config y = y) :
    cleanup_list l = l := by
  induction l with
  | nil => rfl
  | cons x xs ih =>
    rw [cleanup_list, h x (List.mem_cons_self x xs),
      ih (fun y hy => h y (List.mem_cons_of_mem x hy))]

theorem dropEmptyStrings_idem (l : List Json) :
    dropEmptyStrings (dropEmptyStrings l) = dropEmptyStrings l := by
  simp [dropEmptyStrings, List.filter_filter]

theorem cleanup_config_idem_aux :
    ∀ (n : Nat) (v : Json), sizeOf v ≤ n →
      cleanup_config (cleanup_config v) = cleanup_config v := by
  intro n
  induction n with
  | zero =>
    intro v hv
    cases v <;> simp_all
  | succ n ih =>
    intro v hv
    cases v with
    | null => rfl
    | bool b => rfl
    | num m => rfl
    | str s => rfl
    | arr xs =>
      have hxs : sizeOf xs ≤ n := by
        have : sizeOf (Json.arr xs) = 1 + sizeOf xs := by simp
        omega
      show Json.arr (dropEmptyStrings (cleanup_list (dropEmptyStrings (cleanup_list xs))))
        = Json.arr (dropEmptyStrings (cleanup_list xs))
      congr 1
      have hfix : ∀ y ∈ cleanup_list xs, cleanup_config y = y := by
        intro y hy
        obtain ⟨x, hx, rfl⟩ := mem_cleanup_list xs y hy
        have hx' : sizeOf x < sizeOf xs := List.sizeOf_lt_of_mem hx
        exact ih x (by omega)
      have hfix2 : ∀ y ∈ dropEmptyStrings (cleanup_list xs), cleanup_config y = y :=
        fun y hy => hfix y (List.mem_of_mem_filter hy)
      rw [cleanup_list_fixed _ hfix2, dropEmptyStrings_idem]
    | obj kvs =>
      have hkvs : sizeOf kvs ≤ n := by
        have : sizeOf (Json.obj kvs) = 1 + sizeOf kvs := by simp
        omega
      show Json.obj (cleanup_obj (cleanup_obj kvs)) = Json.obj (cleanup_obj kvs)
      congr 1
      have hobj : ∀ l : List (String × Json), (∀ p ∈ l, sizeOf p.2 ≤ n) →
          cleanup_obj (cleanup_obj l) = cleanup_obj l := by
        intro l hl
        induction l with
        | nil => rfl
        | cons p rest ihl =>
          obtain ⟨pk, pv⟩ := p
          rw [cleanup_obj]
          rw [cleanup_obj]
          have h1 : cleanup_config (cleanup_config pv) = cleanup_config pv :=
            ih pv (hl (pk, pv) (List.mem_cons_self _ _))
          rw [h1, ihl (fun q hq => hl q (List.mem_cons_of_mem _ hq))]
      apply hobj
      intro p hp
      have h1 : sizeOf p < sizeOf kvs := List.sizeOf_lt_of_mem hp
      have h2 : sizeOf p.2 < sizeOf p := by
        obtain ⟨pk, pv⟩ := p
        simp
      omega

/-- C9: the empty-string-array cleanup pass is idempotent:
`cleanup_config (cleanup_config v) = cleanup_config v` for every JSON
value `v`. -/
theorem c9_cleanup_idempotent (v : Json) :
    cleanup_config (cleanup_config v) = cleanup_config v :=
  cleanup_config_idem_aux (sizeOf v) v (Nat.le_refl _)

/-! ## C4: fixed precedence of the mapping layers -/

/-- C4: in the Config Generator's mapping construction, later sources
override earlier ones: deployment-file fields are lowest, overridden by the
registry default vars, overridden by the parsed `--var` pairs; the three
fallbacks (`project_id`, `project_name`, `config_path`) apply only to keys
still absent after the first three layers. -/
theorem c4_mapping_precedence
    (deployFields defaultVars : List (String × Json)) (var_args : List String)
    (project output_path : String) (kvs : List (String × String))
    (hv : parse_kv var_args = .ok kvs)
    (hnd : (defaultVars.map Prod.fst).Nodup) (k : String) :
    (compute_mapping deployFields defaultVars var_args project output_path).map
        (fun m => m.lookup k) =
      .ok ((((kvs.lookup k).map Json.str).or
              ((defaultVars.lookup k).or (deployFields.lookup k))).or
            (if k = "project_id" then some (Json.str (project ++ "-dynamic"))
             else if k = "project_name" then
               some (Json.str (pyTitle project ++ " Project (Dynamic)"))
             else if k = "config_path" then some (Json.str output_path)
             else none)) := by
  have hndv : (((kvs.map (fun kv => (kv.1, Json.str kv.2))).map Prod.fst).Nodup) := by
    have heq : (kvs.map (fun kv => (kv.1, Json.str kv.2))).map Prod.fst
        = kvs.map Prod.fst := by
      simp [List.map_map]
    rw [heq]
    exact keys_parse_kv_nodup var_args kvs hv
  have hm3 : ∀ k' : String,
      (dictUpdate (dictUpdate deployFields defaultVars)
        (kvs.map (fun kv => (kv.1, Json.str kv.2)))).lookup k' =
      (((kvs.map (fun kv => (kv.1, Json.str kv.2))).lookup k')).or
        ((defaultVars.lookup k').or (deployFields.lookup k')) := by
    intro k'
    rw [lookup_dictUpdate _ _ _ hndv, lookup_dictUpdate _ _ _ hnd]
  simp only [compute_mapping, hv, Except.map]
  congr 1
  rw [lookup_dictSetdefault]
  by_cases h3 : k = "config_path"
  · subst h3
    rw [if_pos rfl, lookup_dictSetdefault, if_neg (by decide),
      lookup_dictSetdefault, if_neg (by decide), hm3, lookup_map_jsonStr,
      if_neg (by decide), if_neg (by decide), if_pos rfl]
  · rw [if_neg h3, lookup_dictSetdefault]
    by_cases h2 : k = "project_name"
    · subst h2
      rw [if_pos rfl, lookup_dictSetdefault, if_neg (by decide), hm3,
        lookup_map_jsonStr, if_neg (by decide), if_pos rfl]
    · rw [if_neg h2, lookup_dictSetdefault]
      by_cases h1 : k = "project_id"
      · subst h1
        rw [if_pos rfl, hm3, lookup_map_jsonStr, if_pos rfl]
      · rw [if_neg h1, hm3, lookup_map_jsonStr, if_neg h1, if_neg h2, if_neg h3]
        cases ((kvs.lookup k).map Json.str).or
            ((defaultVars.lookup k).or (deployFields.lookup k)) with
        | none => rfl
        | some w => rfl

/-- Witness for C4 at the concrete §8 inputs, key `"b"`. -/
theorem c4_mapping_precedence_witness :
    (compute_mapping [("a", Json.str "1")]
        [("a", Json.str "2"), ("b", Json.str "3")] ["b=4"] "demo" "out.json").map
        (fun m => m.lookup "b") =
      .ok (((([("b", "4")].lookup "b").map Json.str).or
              (([("a", Json.str "2"), ("b", Json.str "3")].lookup "b").or
                ([("a", Json.str "1")].lookup "b"))).or
            (if "b" = "project_id" then some (Json.str ("demo" ++ "-dynamic"))
             else if "b" = "project_name" then
               some (Json.str (pyTitle "demo" ++ " Project (Dynamic)"))
             else if "b" = "config_path" then some (Json.str "out.json")
             else none)) :=
  c4_mapping_precedence [("a", Json.str "1")]
    [("a", Json.str "2"), ("b", Json.str "3")] ["b=4"] "demo" "out.json"
    [("b", "4")] rfl (by decide) "b"

/-! ## C3: safe substitution and the two render error modes -/

theorem lookup_map_value {α β : Type} (g : α → β) (d : List (String × α)) (k : String) :
    ((d.map (fun kv => (kv.1, g kv.2))).lookup k) = (d.lookup k).map g := by
  induction d with
  | nil => rfl
  | cons kv rest ih =>
    by_cases h : k = kv.1
    · simp [List.lookup, h]
    · simp [List.lookup, show (k == kv.1) = false from beq_eq_false_iff_ne.2 h, ih]

theorem takeIdentChars_append_stop (id : List Char) (r : Char)
    (hid : ∀ c ∈ id, isIdentChar c = true) (hr : isIdentChar r = false) :
    takeIdentChars (id ++ [r]) = (id, [r]) := by
  induction id with
  | nil => simp [takeIdentChars, hr]
  | cons c cs ih =>
    have hc : isIdentChar c = true := hid c (List.mem_cons_self _ _)
    have hcs : ∀ x ∈ cs, isIdentChar x = true :=
      fun x hx => hid x (List.mem_cons_of_mem _ hx)
    simp [takeIdentChars, hc, ih hcs]

/-- C3: `generate_from_template` substitutes with safe semantics — a
`${name}` placeholder whose key is absent from the mapping is left
untouched (third conjunct) — and fails with the "template incomplete"
error exactly when the substituted text still contains the marker `${`
(first conjunct); when the marker is absent the substituted text is parsed
as JSON and a parse failure surfaces as a JSON-syntax error (second
conjunct). -/
theorem c3_render_contract (T : String) (M : List (String × Json)) :
    (generate_from_template T M = .error .templateIncomplete ↔
      containsMarker (safe_substitute T (string_mapping M)).data = true) ∧
    (containsMarker (safe_substitute T (string_mapping M)).data = false →
      generate_from_template T M =
        match json_loads (safe_substitute T (string_mapping M)) with
        | .ok d => .ok (cleanup_config d)
        | .error e => .error (.jsonDecodeError e)) ∧
    (∀ k : String, k.data ≠ [] →
      isIdentStart (k.data.headD ' ') = true →
      (∀ c ∈ k.data, isIdentChar c = true) →
      M.lookup k = none →
      safe_substitute ("$\x7b" ++ k ++ "\x7d") (string_mapping M) =
        "$\x7b" ++ k ++ "\x7d") := by
  refine ⟨?_, ?_, ?_⟩
  · by_cases hc : containsMarker (safe_substitute T (string_mapping M)).data = true
    · simp [generate_from_template, hc]
    · simp only [generate_from_template, if_neg hc]
      simp only [Bool.not_eq_true] at hc
      simp only [hc, iff_false]
      cases json_loads (safe_substitute T (string_mapping M)) with
      | ok d => simp
      | error e => simp
  · intro hc
    simp only [generate_from_template, hc, Bool.false_eq_true, if_false]
  · intro k hne hstart hchars hlook
    obtain ⟨l⟩ := k
    have hlook2 : (string_mapping M).lookup (String.mk l) = none := by
      rw [string_mapping, lookup_map_value, hlook]
      rfl
    have hdata : ("$\x7b" ++ String.mk l ++ "\x7d").data
        = '$' :: lbrace :: (l ++ [rbrace]) := rfl
    have htake : takeIdentChars (l ++ [rbrace]) = (l, [rbrace]) :=
      takeIdentChars_append_stop l rbrace (by simpa using hchars) (by decide)
    have hscan : scanDollar (string_mapping M) (lbrace :: (l ++ [rbrace]))
        = ('$' :: lbrace :: (l ++ [rbrace]), []) := by
      have hne' : l ≠ [] := by simpa using hne
      have hstart' : isIdentStart (l.headD ' ') = true := by simpa using hstart
      simp only [scanDollar, htake]
      simp at hstart'
      simp [hne', hstart', bracedResult, hlook2, lbrace]
    have hsub : safeSubFuel (string_mapping M)
        (('$' :: lbrace :: (l ++ [rbrace])).length)
        ('$' :: lbrace :: (l ++ [rbrace])) = '$' :: lbrace :: (l ++ [rbrace]) := by
      have hlen : ('$' :: lbrace :: (l ++ [rbrace])).length
          = ((l ++ [rbrace]).length + 1) + 1 := by simp
      rw [hlen]
      simp [safeSubFuel, hscan]
    calc safe_substitute ("$\x7b" ++ String.mk l ++ "\x7d") (string_mapping M)
        = String.mk (safeSubFuel (string_mapping M)
            (('$' :: lbrace :: (l ++ [rbrace])).length)
            ('$' :: lbrace :: (l ++ [rbrace]))) := by
          rw [safe_substitute, hdata]
      _ = String.mk ('$' :: lbrace :: (l ++ [rbrace])) := by rw [hsub]
      _ = "$\x7b" ++ String.mk l ++ "\x7d" := by rw [← hdata]

/-! ## C5: project-key derivation -/

theorem pyLowerChar_toNat_of_upper (c : Char) (h : 65 ≤ c.toNat ∧ c.toNat ≤ 90) :
    (pyLowerChar c).toNat = c.toNat + 32 := by
  simp only [pyLowerChar, dif_pos h]
  rfl

theorem pyLowerChar_eq_of_not_upper (c : Char) (h : ¬(65 ≤ c.toNat ∧ c.toNat ≤ 90)) :
    pyLowerChar c = c := by
  simp only [pyLowerChar, dif_neg h]

theorem pyLowerChar_idem (c : Char) : pyLowerChar (pyLowerChar c) = pyLowerChar c := by
  by_cases h : 65 ≤ c.toNat ∧ c.toNat ≤ 90
  · apply pyLowerChar_eq_of_not_upper
    rw [pyLowerChar_toNat_of_upper c h]
    omega
  · simp [pyLowerChar_eq_of_not_upper c h]

theorem pyIsSpace_eq_false_of_gt32 (c : Char) (h : 32 < c.toNat) :
    pyIsSpace c = false := by
  simp only [pyIsSpace, Bool.or_eq_false_iff, decide_eq_false_iff_not]
  refine ⟨⟨⟨⟨⟨?_, ?_⟩, ?_⟩, ?_⟩, ?_⟩, ?_⟩ <;>
    (intro he; subst he; exact absurd h (by decide))

theorem pyIsSpace_pyLowerChar (c : Char) :
    pyIsSpace (pyLowerChar c) = pyIsSpace c := by
  by_cases h : 65 ≤ c.toNat ∧ c.toNat ≤ 90
  · have ht := pyLowerChar_toNat_of_upper c h
    rw [pyIsSpace_eq_false_of_gt32 _ (by omega),
      pyIsSpace_eq_false_of_gt32 c (by omega)]
  · rw [pyLowerChar_eq_of_not_upper c h]

theorem replChar_fixed_lower (a : Char) :
    pyLowerChar (if pyLowerChar a = ' ' then '_' else pyLowerChar a)
      = (if pyLowerChar a = ' ' then '_' else pyLowerChar a) := by
  by_cases hsp : pyLowerChar a = ' '
  · rw [if_pos hsp]
    decide
  · rw [if_neg hsp, pyLowerChar_idem]

theorem replChar_ne_space (c : Char) : (if c = ' ' then '_' else c) ≠ ' ' := by
  by_cases h : c = ' '
  · rw [if_pos h]
    decide
  · rwa [if_neg h]

theorem pyIsSpace_replChar (c : Char) (h : pyIsSpace c = false) :
    pyIsSpace (if c = ' ' then '_' else c) = false := by
  by_cases hc : c = ' '
  · rw [if_pos hc]
    decide
  · rwa [if_neg hc]

theorem map_eq_self_of_fixed {α : Type} (f : α → α) (l : List α)
    (h : ∀ c ∈ l, f c = c) : l.map f = l := by
  induction l with
  | nil => rfl
  | cons c cs ih =>
    rw [List.map_cons, h c (List.mem_cons_self _ _),
      ih (fun x hx => h x (List.mem_cons_of_mem _ hx))]

theorem head_dropWhile_false (p : Char → Bool) (l : List Char) (c : Char)
    (h : (l.dropWhile p).head? = some c) : p c = false := by
  induction l with
  | nil => simp [List.dropWhile] at h
  | cons a as ih =>
    by_cases hp : p a
    · rw [List.dropWhile_cons_of_pos hp] at h
      exact ih h
    · rw [List.dropWhile_cons_of_neg hp] at h
      simp at h
      rw [← h]
      simpa using hp

theorem head_take_eq (l : List Char) (n : Nat) (c : Char)
    (h : (l.take n).head? = some c) : l.head? = some c := by
  cases l with
  | nil => simp at h
  | cons a as =>
    cases n with
    | zero => simp at h
    | succ m => simpa using h

theorem dropWhile_eq_self_of_head (p : Char → Bool) (l : List Char)
    (h : ∀ c, l.head? = some c → p c = false) : l.dropWhile p = l := by
  cases l with
  | nil => rfl
  | cons a as => rw [List.dropWhile_cons_of_neg (by simp [h a rfl])]

theorem head_eq_of_pre (l1 l2 : List Char) (c : Char)
    (hp : l1 <+: l2) (h : l1.head? = some c) : l2.head? = some c := by
  obtain ⟨t, rfl⟩ := hp
  cases l1 with
  | nil => simp at h
  | cons a as => simpa using h

theorem pyStrip_data_head (x : String) (c : Char)
    (h : (pyStrip x).data.head? = some c) : pyIsSpace c = false := by
  have hpre : (pyStrip x).data <+: x.data.dropWhile pyIsSpace := by
    have hsuf : ((x.data.dropWhile pyIsSpace).reverse.dropWhile pyIsSpace) <:+
        (x.data.dropWhile pyIsSpace).reverse := List.dropWhile_suffix pyIsSpace
    have := List.reverse_prefix.2 hsuf
    simpa [pyStrip] using this
  exact head_dropWhile_false pyIsSpace x.data c (head_eq_of_pre _ _ c hpre h)

theorem pyStrip_eq_self (s : String)
    (hh : ∀ c, s.data.head? = some c → pyIsSpace c = false)
    (hl : ∀ c, s.data.getLast? = some c → pyIsSpace c = false) :
    pyStrip s = s := by
  obtain ⟨d⟩ := s
  show String.mk (((d.dropWhile pyIsSpace).reverse.dropWhile pyIsSpace).reverse)
    = String.mk d
  rw [dropWhile_eq_self_of_head pyIsSpace d hh]
  rw [dropWhile_eq_self_of_head pyIsSpace d.reverse
    (fun c hc => hl c (by rwa [List.head?_reverse] at hc))]
  rw [List.reverse_reverse]

/-- The characters of a derived project key are fixed by lowering and are
never the space character. -/
theorem protocol_to_key_chars (x : String) :
    ∀ c ∈ (protocol_to_key x).data, pyLowerChar c = c ∧ c ≠ ' ' := by
  intro c hc
  have hsub : c ∈ (pyReplaceSpaceUnderscore (pyLower (pyStrip x))).data := by
    unfold protocol_to_key at hc
    by_cases hsuf : List.isSuffixOf "_exp".data
        (pyReplaceSpaceUnderscore (pyLower (pyStrip x))).data
    · rw [if_pos hsuf] at hc
      exact List.take_subset _ _ hc
    · rwa [if_neg hsuf] at hc
  have hmap : c ∈ ((pyStrip x).data.map pyLowerChar).map
      (fun a => if a = ' ' then '_' else a) := hsub
  rw [List.map_map] at hmap
  obtain ⟨b, _hb, rfl⟩ := List.mem_map.1 hmap
  constructor
  · exact replChar_fixed_lower b
  · exact replChar_ne_space (pyLowerChar b)

/-- The first character of a derived project key is never whitespace. -/
theorem protocol_to_key_head (x : String) (c : Char)
    (h : (protocol_to_key x).data.head? = some c) : pyIsSpace c = false := by
  have hkey : ∀ c', (pyReplaceSpaceUnderscore (pyLower (pyStrip x))).data.head? = some c' →
      pyIsSpace c' = false := by
    intro c' hc'
    have : ((pyStrip x).data.map
        ((fun a => if a = ' ' then '_' else a) ∘ pyLowerChar)).head? = some c' := by
      simpa [pyReplaceSpaceUnderscore, pyLower, List.map_map] using hc'
    rw [List.head?_map] at this
    cases hd : (pyStrip x).data.head? with
    | none => rw [hd] at this; simp at this
    | some c0 =>
      rw [hd] at this
      simp at this
      rw [← this]
      have h0 : pyIsSpace c0 = false := pyStrip_data_head x c0 hd
      exact pyIsSpace_replChar _ (by rw [pyIsSpace_pyLowerChar]; exact h0)
  unfold protocol_to_key at h
  by_cases hsuf : List.isSuffixOf "_exp".data
      (pyReplaceSpaceUnderscore (pyLower (pyStrip x))).data
  · rw [if_pos hsuf] at h
    exact hkey c (head_take_eq _ _ c h)
  · rw [if_neg hsuf] at h
    exact hkey c h

/-- C5 counterexample: `protocol_to_key` is *not* idempotent.  On
`"foo_exp_exp"` the first application strips one `_exp` suffix leaving
`"foo_exp"`, and the second strips another; on `"a\t_exp"` stripping the
suffix exposes a trailing tab which the second application strips. -/
theorem c5_counterexample :
    protocol_to_key (protocol_to_key "foo_exp_exp") ≠ protocol_to_key "foo_exp_exp" ∧
    protocol_to_key (protocol_to_key "a\t_exp") ≠ protocol_to_key "a\t_exp" := by
  constructor <;> decide

/-- C5 (amended): `protocol_to_key` is idempotent on every input whose
derived key neither ends with `"_exp"` nor ends with a whitespace
character: `key(key(x)) = key(x)` under those two provisos (the
counterexample shows both are necessary). -/
theorem c5_key_idempotent_amended (x : String)
    (h1 : List.isSuffixOf "_exp".data (protocol_to_key x).data = false)
    (h2 : ((protocol_to_key x).data.getLast?.all (fun c => !pyIsSpace c)) = true) :
    protocol_to_key (protocol_to_key x) = protocol_to_key x := by
  have hchars := protocol_to_key_chars x
  have hlast : ∀ c, (protocol_to_key x).data.getLast? = some c → pyIsSpace c = false := by
    intro c hc
    rw [hc] at h2
    simpa using h2
  have hstrip : pyStrip (protocol_to_key x) = protocol_to_key x :=
    pyStrip_eq_self _ (protocol_to_key_head x) hlast
  have hlower : pyLower (protocol_to_key x) = protocol_to_key x := by
    unfold pyLower
    rw [map_eq_self_of_fixed _ _ (fun c hc => (hchars c hc).1)]
  have hrepl : pyReplaceSpaceUnderscore (protocol_to_key x) = protocol_to_key x := by
    unfold pyReplaceSpaceUnderscore
    rw [map_eq_self_of_fixed _ _ (fun c hc => if_neg ((hchars c hc).2))]
  show (let key := pyReplaceSpaceUnderscore (pyLower (pyStrip (protocol_to_key x)))
    if List.isSuffixOf "_exp".data key.data then
      String.mk (key.data.take (key.data.length - 4))
    else key) = protocol_to_key x
  rw [hstrip, hlower, hrepl]
  simp [h1]

/-- Witness for the amended C5 at `"Foo_EXP"` (whose key is `"foo"`). -/
theorem c5_key_idempotent_witness :
    protocol_to_key (protocol_to_key "Foo_EXP") = protocol_to_key "Foo_EXP" :=
  c5_key_idempotent_amended "Foo_EXP" (by decide) (by decide)

/-- Witness for C3 at `T = "${a}"`, `M = []`: the absent-key placeholder is
left untouched. -/
theorem c3_render_contract_witness :
    safe_substitute "$\x7ba\x7d" (string_mapping []) = "$\x7ba\x7d" :=
  (c3_render_contract "$\x7ba\x7d" []).2.2 "a" (by decide) (by decide)
    (by decide) rfl

/-! ## C2: missing deployment file -/

/-- C2, behaviour of the code at the failing input: the deploy path
`missing.json` is supplied but absent, the generator prints the warning and
proceeds, and the template's `${token_address}` placeholder (which the
deployment file would have filled) is left untouched by safe substitution —
so the render *raises the "template incomplete" error* instead of
substituting the empty string as the spec (and the code's own warning
message) promise. -/
theorem c2_missing_deploy_render :
    generate_config_main
      (GenArgs.mk "demo" (some "missing.json") (some "t.tmpl") (some "out.json") [])
      (FS.mk [("t.tmpl", "\x7b\"addr\": \"$\x7btoken_address\x7d\"\x7d")] [])
    = ([missingDeployWarning "missing.json"],
        .renderError .templateIncomplete) := rfl

/-! ## C7: per-protocol outcome classification -/

/-- C7: for one protocol, (i) if neither the generated template nor the
fallback template exists the protocol is counted as a failure, the
filesystem is untouched, no subprocess is spawned (the result does not
depend on the child-run oracle) and no output file is created; (ii) if the
resolved template exists, the output path already exists and `--force` is
not set, the protocol is counted as skipped, the filesystem is untouched
(the existing output file is byte-identical) and no subprocess is
spawned. -/
theorem c7_outcome_classification
    (args : BatchArgs) (o o2 : ChildRun) (fs : FS) (p : String) :
    (pathExists fs (template_primary p) = false →
     pathExists fs (template_fallback p) = false →
       process_protocol args o fs p = (.failed, fs) ∧
       process_protocol args o fs p = process_protocol args o2 fs p ∧
       readFile (process_protocol args o fs p).2 (output_for p)
         = readFile fs (output_for p)) ∧
    (pathExists fs (resolve_template fs p) = true →
     pathExists fs (output_for p) = true → args.force = false →
       process_protocol args o fs p = (.skipped, fs) ∧
       process_protocol args o fs p = process_protocol args o2 fs p ∧
       readFile (process_protocol args o fs p).2 (output_for p)
         = readFile fs (output_for p)) := by
  constructor
  · intro h1 h2
    have hres : resolve_template fs p = template_primary p := by
      simp [resolve_template, h1, h2]
    have hp : process_protocol args o fs p = (.failed, fs) := by
      simp [process_protocol, hres, h1]
    have hp2 : process_protocol args o2 fs p = (.failed, fs) := by
      simp [process_protocol, hres, h1]
    rw [hp, hp2]
    exact ⟨rfl, rfl, rfl⟩
  · intro hr ho hf
    have hp : process_protocol args o fs p = (.skipped, fs) := by
      simp [process_protocol, hr, ho, hf]
    have hp2 : process_protocol args o2 fs p = (.skipped, fs) := by
      simp [process_protocol, hr, ho, hf]
    rw [hp, hp2]
    exact ⟨rfl, rfl, rfl⟩

/-- Witness for C7: protocol `"P"` with a present fallback template and a
pre-existing output file, `--force` absent, is skipped and the filesystem
is unchanged. -/
theorem c7_outcome_classification_witness :
    process_protocol (BatchArgs.mk [] none [] false false false)
        (fun _ fs => (0, fs))
        (FS.mk [("ROOT/autopath/config/templates/p_dynamic.json.tmpl", "T"),
                ("ROOT/autopath/pkg/invariants/configs/p.json", "X")] []) "P"
      = (.skipped,
         FS.mk [("ROOT/autopath/config/templates/p_dynamic.json.tmpl", "T"),
                ("ROOT/autopath/pkg/invariants/configs/p.json", "X")] []) :=
  ((c7_outcome_classification (BatchArgs.mk [] none [] false false false)
      (fun _ fs => (0, fs)) (fun _ fs => (0, fs))
      (FS.mk [("ROOT/autopath/config/templates/p_dynamic.json.tmpl", "T"),
              ("ROOT/autopath/pkg/invariants/configs/p.json", "X")] []) "P").2
    (by decide) (by decide) rfl).1

/-! ## C8: the overall exit code -/

/-- C8: the Batch Driver's exit code is always 0 or 1; it is 0 exactly when
the protocol list was non-empty and no protocol was counted as failed
(skips never affect it, and an empty protocol list — from either source —
yields 1). -/
theorem c8_exit_code (args : BatchArgs) (discovered : List String)
    (o : ChildRun) (fs : FS) :
    (batch_main args discovered o fs).exitCode =
      (if effective_protocol_list args discovered = [] then 1
       else if (batch_main args discovered o fs).failed = 0 then 0 else 1) := by
  unfold batch_main
  by_cases h : effective_protocol_list args discovered = []
  · simp [h]
  · simp only [if_neg h]

/-! ## C10: the three counters partition the protocol list -/

theorem batch_loop_sum (args : BatchArgs) (o : ChildRun) :
    ∀ (ps : List String) (fs : FS) (s k f : Nat),
      (batch_loop args o ps fs s k f).1 + (batch_loop args o ps fs s k f).2.1 +
        (batch_loop args o ps fs s k f).2.2.1 = s + k + f + ps.length := by
  intro ps
  induction ps with
  | nil => intro fs s k f; simp [batch_loop]
  | cons p rest ih =>
    intro fs s k f
    rw [batch_loop]
    cases hpp : process_protocol args o fs p with
    | mk outcome fs' =>
      cases outcome with
      | success =>
        rw [ih fs' (s + 1) k f]
        simp
        omega
      | skipped =>
        rw [ih fs' s (k + 1) f]
        simp
        omega
      | failed =>
        rw [ih fs' s k (f + 1)]
        simp
        omega

/-- C10: in every run that reaches the per-protocol loop (non-empty
protocol list), each protocol contributes to exactly one of the three
counters: `success + skipped + failed` equals the length of the protocol
list. -/
theorem c10_counters_partition (args : BatchArgs) (discovered : List String)
    (o : ChildRun) (fs : FS)
    (h : effective_protocol_list args discovered ≠ []) :
    (batch_main args discovered o fs).success +
      (batch_main args discovered o fs).skipped +
      (batch_main args discovered o fs).failed =
      (effective_protocol_list args discovered).length := by
  unfold batch_main
  simp only [if_neg h]
  simpa using batch_loop_sum args o (effective_protocol_list args discovered)
    (mkdir_p fs OUTPUT_ROOT) 0 0 0

/-- Witness for C10 with the one-protocol list `["P"]`. -/
theorem c10_counters_partition_witness :
    (batch_main (BatchArgs.mk [] (some ["P"]) [] false false false) []
        (fun _ fs => (0, fs)) (FS.mk [] [])).success +
      (batch_main (BatchArgs.mk [] (some ["P"]) [] false false false) []
        (fun _ fs => (0, fs)) (FS.mk [] [])).skipped +
      (batch_main (BatchArgs.mk [] (some ["P"]) [] false false false) []
        (fun _ fs => (0, fs)) (FS.mk [] [])).failed =
      (effective_protocol_list (BatchArgs.mk [] (some ["P"]) [] false false false)
        []).length :=
  c10_counters_partition (BatchArgs.mk [] (some ["P"]) [] false false false) []
    (fun _ fs => (0, fs)) (FS.mk [] []) (by decide)

/-! ## C6: dry-run filesystem effects -/

theorem process_protocol_dry_run (args : BatchArgs) (o o2 : ChildRun)
    (fs : FS) (p : String) (h : args.dryRun = true) :
    process_protocol args o fs p = process_protocol args o2 fs p ∧
    (process_protocol args o fs p).2 = fs := by
  by_cases h1 : pathExists fs (resolve_template fs p) <;>
    by_cases h2 : pathExists fs (output_for p) <;>
    by_cases h3 : args.force <;>
    simp [process_protocol, h1, h2, h3, h]

theorem batch_loop_dry_run (args : BatchArgs) (o o2 : ChildRun)
    (h : args.dryRun = true) :
    ∀ (ps : List String) (fs : FS) (s k f : Nat),
      batch_loop args o ps fs s k f = batch_loop args o2 ps fs s k f ∧
      (batch_loop args o ps fs s k f).2.2.2 = fs := by
  intro ps
  induction ps with
  | nil => intro fs s k f; exact ⟨rfl, rfl⟩
  | cons p rest ih =>
    intro fs s k f
    obtain ⟨ho, hfs⟩ := process_protocol_dry_run args o o2 fs p h
    rw [batch_loop]
    rw [batch_loop]
    rw [← ho]
    cases hpp : process_protocol args o fs p with
    | mk outcome fs' =>
      have hfs' : fs' = fs := by rw [hpp] at hfs; exact hfs
      subst hfs'
      cases outcome with
      | success => exact ih _ (s + 1) k f
      | skipped => exact ih _ s (k + 1) f
      | failed => exact ih _ s k (f + 1)

/-- C6 counterexample: a dry run *does* create a directory.  With protocol
list `["P"]` and an initially empty filesystem, the run executes
`OUTPUT_ROOT.mkdir(parents=True, exist_ok=True)` before the loop even in
dry-run mode, so the output-root directory appears on disk. -/
theorem c6_counterexample :
    (batch_main (BatchArgs.mk [] (some ["P"]) [] false true false) []
        (fun _ fs => (0, fs)) (FS.mk [] [])).fs.dirs ≠ (FS.mk [] [] : FS).dirs := by
  decide

/-- C6 (amended): a dry run never creates or modifies any *file*,
regardless of `--force` and of the protocol list, and never spawns a child
process (the result is independent of the child-run oracle); its only
filesystem effect is creating the output-root directory before the loop
(which happens whenever the protocol list is non-empty, dry-run or not). -/
theorem c6_dry_run_amended (args : BatchArgs) (discovered : List String)
    (o o2 : ChildRun) (fs : FS) (h : args.dryRun = true) :
    (batch_main args discovered o fs).fs.files = fs.files ∧
    (batch_main args discovered o fs).fs =
      (if effective_protocol_list args discovered = [] then fs
       else mkdir_p fs OUTPUT_ROOT) ∧
    batch_main args discovered o fs = batch_main args discovered o2 fs := by
  unfold batch_main
  by_cases he : effective_protocol_list args discovered = []
  · simp [he]
  · simp only [if_neg he]
    obtain ⟨ho, hfs⟩ := batch_loop_dry_run args o o2 h
      (effective_protocol_list args discovered) (mkdir_p fs OUTPUT_ROOT) 0 0 0
    refine ⟨?_, ?_, ?_⟩
    · show (batch_loop args o (effective_protocol_list args discovered)
        (mkdir_p fs OUTPUT_ROOT) 0 0 0).2.2.2.files = fs.files
      rw [hfs]
      unfold mkdir_p
      by_cases hd : OUTPUT_ROOT ∈ fs.dirs <;> simp [hd]
    · show (batch_loop args o (effective_protocol_list args discovered)
        (mkdir_p fs OUTPUT_ROOT) 0 0 0).2.2.2 = _
      rw [hfs]
    · rw [ho]

/-- Witness for the amended C6: dry run over `["P"]` with distinct oracles
leaves the files untouched and only creates the output-root directory. -/
theorem c6_dry_run_amended_witness :
    (batch_main (BatchArgs.mk [] (some ["P"]) [] true true false) []
        (fun _ fs => (0, fs)) (FS.mk [("f", "x")] [])).fs.files
      = (FS.mk [("f", "x")] [] : FS).files ∧
    batch_main (BatchArgs.mk [] (some ["P"]) [] true true false) []
        (fun _ fs => (0, fs)) (FS.mk [("f", "x")] [])
      = batch_main (BatchArgs.mk [] (some ["P"]) [] true true false) []
        (fun _ fs => (1, fs)) (FS.mk [("f", "x")] []) := by
  obtain ⟨h1, _h2, h3⟩ := c6_dry_run_amended
    (BatchArgs.mk [] (some ["P"]) [] true true false) []
    (fun _ fs => (0, fs)) (fun _ fs => (1, fs)) (FS.mk [("f", "x")] []) rfl
  exact ⟨h1, h3⟩

end Autopath

